import Mathlib

/-!
Shallow embedding of the core of the isic-zipstreamer repository
(package zip_streamer: retryableGet, getS3Object, NewZipStream,
StreamAllFiles, getVcsRevision).

Modelling conventions:
* HTTP responses are a status code plus body bytes (List Nat).
* Effectful calls to external collaborators (http.DefaultClient.Do,
  the AWS SDK object fetch, http.NewRequest) are abstracted as oracle
  arguments giving the outcome of each call; the i-th fetch attempt of
  retryableGet consults the oracle at index i, and the fetch for the
  i-th archive entry of StreamAllFiles consults its oracle at index i.
* time.Sleep is modelled by recording the slept durations, in seconds,
  in the order they occur.
* A Go runtime panic (nil pointer dereference, slice bounds out of
  range) is modelled by a dedicated crash value, since the function
  never returns normally in that case.
* The zip writer (archive/zip, an external library) is modelled as an
  in-memory list of members plus a finalized flag; sink write errors
  are outside the model, so CreateHeader, Copy, Flush and Close are
  modelled as succeeding.
-/

/-- Constant NUM_RETRIES = 5 from the source. -/
def NUM_RETRIES : Nat := 5

/-- The retryableStatusCodes slice from the source: StatusRequestTimeout,
StatusTooManyRequests, StatusInternalServerError, StatusBadGateway,
StatusServiceUnavailable, StatusGatewayTimeout. -/
def retryableStatusCodes : List Nat := [408, 429, 500, 502, 503, 504]

/-- An HTTP response as the code observes it: status code and body bytes. -/
structure Response where
  statusCode : Nat
  body : List Nat
deriving DecidableEq, Repr

/-- Sleep duration computed at the top of the retry loop for zero-based
attempt i: Go computes time.Duration(math.Min(math.Pow(2, float64(i)),
float64(30))) * time.Second.  The float64 computation is exact on this
range (powers of two below 2^53, and the cap 30 once 2^i exceeds it),
so in seconds it is min (2^i) 30. -/
def sleepDurationSec (i : Nat) : Nat := min (2 ^ i) 30

/-- Helper for Go strings.Contains: does pat occur as a contiguous
sublist of l? -/
def containsAux (pat : List Char) : List Char → Bool
  | [] => pat.isEmpty
  | c :: rest => pat.isPrefixOf (c :: rest) || containsAux pat rest

/-- The isS3URL test of retryableGet:
strings.Contains(urlStr, "isic-storage"). -/
def isS3URL (urlStr : String) : Bool :=
  containsAux ("isic-storage".data) urlStr.data

/-- Embedding of getS3Object.  URL parsing, AWS configuration loading,
the GetObject call and the body read are external-collaborator steps,
abstracted as a single oracle value: either an error from any of those
steps, or the object's bytes.  On any non-error outcome the source
constructs a response with StatusCode 200 and the read body. -/
def getS3Object (s3Fetch : Except String (List Nat)) : Except String Response :=
  match s3Fetch with
  | Except.error e => Except.error e
  | Except.ok body => Except.ok { statusCode := 200, body := body }

/-- Outcome of retryableGet: a response with nil error, a nil response
with a non-nil error, or a crash.  nilDeref models the Go nil pointer
dereference that the generic path hits when http.DefaultClient.Do
returns a transport error: the inner err declared by the short variable
declaration in the else block shadows the outer err, so the outer err
stays nil, the status check runs on a nil resp, and resp.StatusCode
panics. -/
inductive GetResult where
  | ok (r : Response)
  | err (e : String)
  | nilDeref
deriving DecidableEq, Repr

/-- The retry loop of retryableGet, recursing over the list of remaining
zero-based attempt indices ([0, 1, 2, 3, 4] at the top-level call, one
per loop iteration).  Arguments: isS3 is the precomputed isS3URL test;
newReq is the (deterministic) outcome of http.NewRequest; doReq i / s3 i
are the outcomes of http.DefaultClient.Do / the S3 object fetch on
attempt i; lastErr is the outer err variable.  The returned list is the
sequence of sleeps performed, in seconds.  Faithful points: on the S3
path the outer err is reassigned each attempt and an error attempt
sleeps only when i < NUM_RETRIES-1; on the generic path the outer err is
never assigned (shadowing), a Do error crashes (nil resp dereference in
the status check), and a retryable status sleeps unconditionally, even
on the last attempt. -/
def retryableGetAux (isS3 : Bool) (newReq : Except String Unit)
    (doReq : Nat → Except String Response) (s3 : Nat → Except String (List Nat))
    (lastErr : Option String) : List Nat → GetResult × List Nat
  | [] =>
    match lastErr with
    | none => (GetResult.err ("max retries exceeded"), [])
    | some e => (GetResult.err e, [])
  | i :: rest =>
    if isS3 then
      match getS3Object (s3 i) with
      | Except.ok r => (GetResult.ok r, [])
      | Except.error e =>
        if i < NUM_RETRIES - 1 then
          ((retryableGetAux isS3 newReq doReq s3 (some e) rest).1,
            sleepDurationSec i :: (retryableGetAux isS3 newReq doReq s3 (some e) rest).2)
        else
          retryableGetAux isS3 newReq doReq s3 (some e) rest
    else
      match newReq with
      | Except.error e => (GetResult.err e, [])
      | Except.ok _ =>
        match doReq i with
        | Except.error _ => (GetResult.nilDeref, [])
        | Except.ok r =>
          if r.statusCode ∈ retryableStatusCodes then
            ((retryableGetAux isS3 newReq doReq s3 lastErr rest).1,
              sleepDurationSec i :: (retryableGetAux isS3 newReq doReq s3 lastErr rest).2)
          else
            (GetResult.ok r, [])

/-- Embedding of retryableGet: runs the retry loop over attempt indices
0 to NUM_RETRIES-1 with the outer err initially nil. -/
def retryableGet (urlStr : String) (newReq : Except String Unit)
    (doReq : Nat → Except String Response) (s3 : Nat → Except String (List Nat)) :
    GetResult × List Nat :=
  retryableGetAux (isS3URL urlStr) newReq doReq s3 none (List.range NUM_RETRIES)

/-- A FileEntry as StreamAllFiles observes it: source URL and archive
path. -/
structure FileEntry where
  url : String
  zipPath : String
deriving DecidableEq, Repr

/-- zip.Store compression method constant. -/
def zipStore : Nat := 0

/-- zip.Deflate compression method constant. -/
def zipDeflate : Nat := 8

/-- The ZipStream session struct: entries and the compression method. -/
structure ZipStream where
  entries : List FileEntry
  CompressionMethod : Nat
deriving DecidableEq, Repr

/-- Embedding of NewZipStream: rejects an empty entry list, otherwise
builds the session with CompressionMethod defaulted to zip.Store.  The
source performs no fetch or other I/O here, which the embedding reflects
by being a pure function of the entry list. -/
def NewZipStream (entries : List FileEntry) : Except String ZipStream :=
  if entries.length = 0 then
    Except.error ("must have at least 1 entry")
  else
    Except.ok { entries := entries, CompressionMethod := zipStore }

/-- One member written into the zip container: header name, method, and
the bytes copied into it. -/
structure ZipMember where
  name : String
  method : Nat
  content : List Nat
deriving DecidableEq, Repr

/-- Result of the per-entry loop of StreamAllFiles: members written so
far plus the final success counter, or the members written before a
crash propagating out of retryableGet. -/
inductive LoopResult where
  | done (members : List ZipMember) (success : Nat)
  | crashed (members : List ZipMember)
deriving DecidableEq, Repr

/-- The per-entry loop of StreamAllFiles, consulting fetch idx for the
outcome of retryableGet on the entry at index idx.  Faithful points: the
member header is created for every entry (failed or not); a failed fetch
writes no bytes, so the member content is empty; a successful fetch
copies the response body; and the success counter is incremented at the
end of every iteration, unconditionally. -/
def streamLoop (method : Nat) (fetch : Nat → GetResult) :
    List FileEntry → Nat → LoopResult
  | [], _ => LoopResult.done [] 0
  | entry :: rest, idx =>
    match fetch idx with
    | GetResult.nilDeref => LoopResult.crashed []
    | GetResult.err _ =>
      match streamLoop method fetch rest (idx + 1) with
      | LoopResult.done ms s =>
        LoopResult.done ({ name := entry.zipPath, method := method, content := [] } :: ms) (s + 1)
      | LoopResult.crashed ms =>
        LoopResult.crashed ({ name := entry.zipPath, method := method, content := [] } :: ms)
    | GetResult.ok r =>
      match streamLoop method fetch rest (idx + 1) with
      | LoopResult.done ms s =>
        LoopResult.done ({ name := entry.zipPath, method := method, content := r.body } :: ms) (s + 1)
      | LoopResult.crashed ms =>
        LoopResult.crashed ({ name := entry.zipPath, method := method, content := r.body } :: ms)

/-- Overall result of StreamAllFiles. -/
inductive StreamResult where
  | ok
  | errorMsg (e : String)
  | crashed
deriving DecidableEq, Repr

/-- Observable outcome of StreamAllFiles: the members written into the
container, whether zipWriter.Close ran (finalized: central directory
written), the returned error, and the final success counter. -/
structure StreamOutcome where
  members : List ZipMember
  finalized : Bool
  result : StreamResult
  success : Nat
deriving DecidableEq, Repr

/-- Embedding of StreamAllFiles: runs the per-entry loop, then returns
the "empty file - all files failed" error without closing the writer
when the success counter is zero, and otherwise calls zipWriter.Close
(finalizing the archive) and returns its result. -/
def StreamAllFiles (z : ZipStream) (fetch : Nat → GetResult) : StreamOutcome :=
  match streamLoop z.CompressionMethod fetch z.entries 0 with
  | LoopResult.crashed ms =>
    { members := ms, finalized := false, result := StreamResult.crashed, success := 0 }
  | LoopResult.done ms s =>
    if s = 0 then
      { members := ms, finalized := false,
        result := StreamResult.errorMsg ("empty file - all files failed"), success := s }
    else
      { members := ms, finalized := true, result := StreamResult.ok, success := s }

/-- A key/value pair of debug.BuildInfo settings. -/
structure BuildSetting where
  key : String
  value : String
deriving DecidableEq, Repr

/-- The part of debug.BuildInfo that getVcsRevision reads. -/
structure BuildInfo where
  settings : List BuildSetting
deriving DecidableEq, Repr

/-- The settings loop of getVcsRevision.  The source returns
setting.Value[:8] for the first setting whose key is "vcs.revision";
that Go slice panics (slice bounds out of range) when the value is
shorter than 8 bytes, modelled here by none. -/
def findVcsRevision : List BuildSetting → Option String
  | [] => some ("dev")
  | s :: rest =>
    if s.key = "vcs.revision" then
      if 8 ≤ s.value.length then some (s.value.take 8) else none
    else
      findVcsRevision rest

/-- Embedding of getVcsRevision: debug.ReadBuildInfo is abstracted as an
Option BuildInfo; the function answers "dev" when it is unavailable and
otherwise scans the settings. -/
def getVcsRevision (buildInfo : Option BuildInfo) : Option String :=
  match buildInfo with
  | none => some ("dev")
  | some bi => findVcsRevision bi.settings

/-- Content that StreamAllFiles writes into a member, as a function of
the fetch outcome for that entry. -/
def contentOf : GetResult → List Nat
  | GetResult.ok r => r.body
  | GetResult.err _ => []
  | GetResult.nilDeref => []

/-! Helper lemmas shared by several claim theorems. -/

/-- On the S3 path, whenever the retry loop yields a response (nil
error), that response's status code is 200, because getS3Object
synthesizes it. -/
lemma retryableGetAux_s3_status (newReq : Except String Unit)
    (doReq : Nat → Except String Response) (s3 : Nat → Except String (List Nat)) :
    ∀ (attempts : List Nat) (lastErr : Option String) (r : Response),
      (retryableGetAux true newReq doReq s3 lastErr attempts).1 = GetResult.ok r →
      r.statusCode = 200 := by
  intro attempts
  induction attempts with
  | nil =>
    intro lastErr r h
    cases lastErr <;> simp [retryableGetAux] at h
  | cons i rest ih =>
    intro lastErr r h
    cases hs : s3 i with
    | ok body =>
      simp [retryableGetAux, getS3Object, hs] at h
      rw [← h]
    | error e =>
      by_cases hi : i < NUM_RETRIES - 1
      · simp only [retryableGetAux, getS3Object, hs, if_pos hi, if_true] at h
        exact ih (some e) r h
      · simp only [retryableGetAux, getS3Object, hs, if_neg hi, if_true] at h
        exact ih (some e) r h

/-- On the S3 path, when every attempt errors, retryableGet returns the
error of the last attempt and sleeps only after the first four attempts
(the i < NUM_RETRIES-1 guard skips the sleep after the final one). -/
lemma retryableGet_s3_all_fail (url : String) (hurl : isS3URL url = true)
    (newReq : Except String Unit) (doReq : Nat → Except String Response)
    (s3 : Nat → Except String (List Nat)) (e : Nat → String)
    (h : ∀ i, i < NUM_RETRIES → s3 i = Except.error (e i)) :
    retryableGet url newReq doReq s3 = (GetResult.err (e 4), [1, 2, 4, 8]) := by
  have h0 := h 0 (by norm_num [NUM_RETRIES])
  have h1 := h 1 (by norm_num [NUM_RETRIES])
  have h2 := h 2 (by norm_num [NUM_RETRIES])
  have h3 := h 3 (by norm_num [NUM_RETRIES])
  have h4 := h 4 (by norm_num [NUM_RETRIES])
  unfold retryableGet
  rw [hurl, show List.range NUM_RETRIES = [0, 1, 2, 3, 4] from by decide]
  simp [retryableGetAux, getS3Object, h0, h1, h2, h3, h4, NUM_RETRIES, sleepDurationSec]

/-- On the S3 path, when the first j attempts error and attempt j
succeeds with body b, retryableGet returns a synthetic 200 response with
body b after j backoff sleeps. -/
lemma retryableGet_s3_first_ok (url : String) (hurl : isS3URL url = true)
    (newReq : Except String Unit) (doReq : Nat → Except String Response)
    (s3 : Nat → Except String (List Nat)) (e : Nat → String) (j : Nat) (b : List Nat)
    (hj : j < NUM_RETRIES) (hok : s3 j = Except.ok b)
    (hbefore : ∀ i, i < j → s3 i = Except.error (e i)) :
    retryableGet url newReq doReq s3 =
      (GetResult.ok { statusCode := 200, body := b },
        (List.range j).map sleepDurationSec) := by
  unfold retryableGet
  rw [hurl, show List.range NUM_RETRIES = [0, 1, 2, 3, 4] from by decide]
  have hj5 : j < 5 := by simpa [NUM_RETRIES] using hj
  clear hj
  interval_cases j
  · simp [retryableGetAux, getS3Object, hok]
  · have h0 := hbefore 0 (by norm_num)
    simp [retryableGetAux, getS3Object, h0, hok, NUM_RETRIES, List.range_succ]
  · have h0 := hbefore 0 (by norm_num)
    have h1 := hbefore 1 (by norm_num)
    simp [retryableGetAux, getS3Object, h0, h1, hok, NUM_RETRIES, List.range_succ]
  · have h0 := hbefore 0 (by norm_num)
    have h1 := hbefore 1 (by norm_num)
    have h2 := hbefore 2 (by norm_num)
    simp [retryableGetAux, getS3Object, h0, h1, h2, hok, NUM_RETRIES, List.range_succ]
  · have h0 := hbefore 0 (by norm_num)
    have h1 := hbefore 1 (by norm_num)
    have h2 := hbefore 2 (by norm_num)
    have h3 := hbefore 3 (by norm_num)
    simp [retryableGetAux, getS3Object, h0, h1, h2, h3, hok, NUM_RETRIES, List.range_succ]

/-- On the generic path, when every attempt yields a response with a
retryable status code, retryableGet returns the generic error and sleeps
after every attempt, including the final one. -/
lemma retryableGet_generic_all_retryable (url : String) (hurl : isS3URL url = false)
    (doReq : Nat → Except String Response) (s3 : Nat → Except String (List Nat))
    (r : Nat → Response)
    (h : ∀ i, i < NUM_RETRIES → doReq i = Except.ok (r i))
    (hs : ∀ i, i < NUM_RETRIES → (r i).statusCode ∈ retryableStatusCodes) :
    retryableGet url (Except.ok ()) doReq s3 =
      (GetResult.err ("max retries exceeded"), [1, 2, 4, 8, 16]) := by
  have h0 := h 0 (by norm_num [NUM_RETRIES])
  have h1 := h 1 (by norm_num [NUM_RETRIES])
  have h2 := h 2 (by norm_num [NUM_RETRIES])
  have h3 := h 3 (by norm_num [NUM_RETRIES])
  have h4 := h 4 (by norm_num [NUM_RETRIES])
  have hs0 := hs 0 (by norm_num [NUM_RETRIES])
  have hs1 := hs 1 (by norm_num [NUM_RETRIES])
  have hs2 := hs 2 (by norm_num [NUM_RETRIES])
  have hs3 := hs 3 (by norm_num [NUM_RETRIES])
  have hs4 := hs 4 (by norm_num [NUM_RETRIES])
  unfold retryableGet
  rw [hurl, show List.range NUM_RETRIES = [0, 1, 2, 3, 4] from by decide]
  simp [retryableGetAux, h0, h1, h2, h3, h4, hs0, hs1, hs2, hs3, hs4, sleepDurationSec]

/-- The per-entry loop of StreamAllFiles, when no fetch crashes, writes
exactly one member per entry, in order, with the entry's archive path,
the session method, and the content determined by the fetch outcome, and
counts every entry in the success counter. -/
lemma streamLoop_done (method : Nat) (fetch : Nat → GetResult) :
    ∀ (entries : List FileEntry) (idx : Nat),
      (∀ i, i < entries.length → fetch (idx + i) ≠ GetResult.nilDeref) →
      ∃ ms, streamLoop method fetch entries idx = LoopResult.done ms entries.length ∧
        ms.length = entries.length ∧
        ∀ (i : Nat) (entry : FileEntry), entries[i]? = some entry →
          ms[i]? = some { name := entry.zipPath, method := method,
                          content := contentOf (fetch (idx + i)) } := by
  intro entries
  induction entries with
  | nil =>
    intro idx _
    exact ⟨[], rfl, rfl, fun i entry h => by simp at h⟩
  | cons entry rest ih =>
    intro idx hc
    have hcr : ∀ i, i < rest.length → fetch (idx + 1 + i) ≠ GetResult.nilDeref := by
      intro i hi
      have hx := hc (i + 1) (by simp only [List.length_cons]; exact Nat.succ_lt_succ hi)
      have harith : idx + 1 + i = idx + (i + 1) := by omega
      rw [harith]
      exact hx
    obtain ⟨ms, hms, hlen, hget⟩ := ih (idx + 1) hcr
    have h0 : fetch idx ≠ GetResult.nilDeref := by
      have hx := hc 0 (by simp)
      simpa using hx
    cases hf : fetch idx with
    | nilDeref => exact absurd hf h0
    | err e =>
      refine ⟨{ name := entry.zipPath, method := method, content := [] } :: ms, ?_, ?_, ?_⟩
      · simp [streamLoop, hf, hms]
      · simp [hlen]
      · intro i ent h
        cases i with
        | zero =>
          simp at h
          subst h
          simp [hf, contentOf]
        | succ j =>
          simp only [List.getElem?_cons_succ] at h
          have hx := hget j ent h
          have harith : idx + 1 + j = idx + (j + 1) := by omega
          rw [harith] at hx
          simpa using hx
    | ok resp =>
      refine ⟨{ name := entry.zipPath, method := method, content := resp.body } :: ms, ?_, ?_, ?_⟩
      · simp [streamLoop, hf, hms]
      · simp [hlen]
      · intro i ent h
        cases i with
        | zero =>
          simp at h
          subst h
          simp [hf, contentOf]
        | succ j =>
          simp only [List.getElem?_cons_succ] at h
          have hx := hget j ent h
          have harith : idx + 1 + j = idx + (j + 1) := by omega
          rw [harith] at hx
          simpa using hx

/-- Characterization of the vcs.revision scan: either no vcs.revision
setting occurs and the answer is "dev", or some vcs.revision setting
with a value of at least 8 characters yields its first 8 characters, or
some vcs.revision setting with a shorter value crashes the function. -/
lemma findVcsRevision_spec :
    ∀ l : List BuildSetting,
      findVcsRevision l = some ("dev") ∨
      (∃ s, s ∈ l ∧ s.key = "vcs.revision" ∧ 8 ≤ s.value.length ∧
        findVcsRevision l = some (s.value.take 8)) ∨
      (∃ s, s ∈ l ∧ s.key = "vcs.revision" ∧ s.value.length < 8 ∧
        findVcsRevision l = none) := by
  intro l
  induction l with
  | nil => exact Or.inl rfl
  | cons s rest ih =>
    by_cases hk : s.key = "vcs.revision"
    · by_cases hv : 8 ≤ s.value.length
      · refine Or.inr (Or.inl ⟨s, List.mem_cons_self s rest, hk, hv, ?_⟩)
        simp [findVcsRevision, hk, hv]
      · refine Or.inr (Or.inr ⟨s, List.mem_cons_self s rest, hk, by omega, ?_⟩)
        simp [findVcsRevision, hk, hv]
    · have hstep : findVcsRevision (s :: rest) = findVcsRevision rest := by
        simp [findVcsRevision, hk]
      rcases ih with h | ⟨t, ht, hkt, hvt, hft⟩ | ⟨t, ht, hkt, hvt, hft⟩
      · exact Or.inl (hstep.trans h)
      · exact Or.inr (Or.inl ⟨t, List.mem_cons_of_mem s ht, hkt, hvt, hstep.trans hft⟩)
      · exact Or.inr (Or.inr ⟨t, List.mem_cons_of_mem s ht, hkt, hvt, hstep.trans hft⟩)

/-! Claim theorems. -/

/-- C1: the claim says the success counter is incremented only for
entries whose fetch succeeded, so that a non-empty list in which every
fetch fails returns the hard "all files failed" error without closing
the zip writer.  The source increments success unconditionally at the
end of every loop iteration, so this theorem evaluates StreamAllFiles at
the failing input (a single entry whose fetch fails): the counter ends
at 1, the writer is closed (archive finalized) and the returned error is
nil, contradicting the claim and making the "empty file - all files
failed" branch unreachable for any list NewZipStream accepts. -/
theorem c1_streamAllFiles_all_failed_eval :
    StreamAllFiles ⟨[{ url := "https://example.com/a", zipPath := "a.txt" }], zipStore⟩
      (fun _ => GetResult.err ("max retries exceeded")) =
    { members := [{ name := "a.txt", method := zipStore, content := [] }],
      finalized := true, result := StreamResult.ok, success := 1 } := by decide

/-- C2 counterexample: a non-S3 fetch whose first attempt yields status
404 with a two-byte body.  Contrary to the claim, retryableGet returns
the response with a nil error (not a failure), and StreamAllFiles
therefore copies the 404 body into the member instead of writing a
zero-byte member. -/
theorem c2_counterexample :
    retryableGet ("https://example.com/a") (Except.ok ())
        (fun _ => Except.ok { statusCode := 404, body := [104, 105] })
        (fun _ => Except.error ("unused")) =
      (GetResult.ok { statusCode := 404, body := [104, 105] }, []) ∧
    StreamAllFiles ⟨[{ url := "https://example.com/a", zipPath := "a.txt" }], zipStore⟩
      (fun _ => GetResult.ok { statusCode := 404, body := [104, 105] }) =
    { members := [{ name := "a.txt", method := zipStore, content := [104, 105] }],
      finalized := true, result := StreamResult.ok, success := 1 } := by
  exact ⟨by decide, by decide⟩

/-- C2 amended: a response whose status is neither 200 nor in the
retryable set is returned immediately by retryableGet as a success (the
response with a nil error, no further attempts and no sleep), and
StreamAllFiles treats such an entry as succeeded, copying the response
body into the member; zero-byte members arise only from fetches that
return an error. -/
theorem c2_amended (url : String) (hurl : isS3URL url = false)
    (doReq : Nat → Except String Response) (s3 : Nat → Except String (List Nat))
    (r : Response) (h0 : doReq 0 = Except.ok r) (hs : r.statusCode ∉ retryableStatusCodes)
    (method : Nat) (entry : FileEntry) (rest : List FileEntry)
    (fetch : Nat → GetResult) (hf : fetch 0 = GetResult.ok r) :
    retryableGet url (Except.ok ()) doReq s3 = (GetResult.ok r, []) ∧
    ∃ ms, (StreamAllFiles ⟨entry :: rest, method⟩ fetch).members =
      { name := entry.zipPath, method := method, content := r.body } :: ms := by
  constructor
  · unfold retryableGet
    rw [hurl, show List.range NUM_RETRIES = [0, 1, 2, 3, 4] from by decide]
    simp [retryableGetAux, h0, hs]
  · cases hrest : streamLoop method fetch rest 1 with
    | done ms s =>
      refine ⟨ms, ?_⟩
      simp [StreamAllFiles, streamLoop, hf, hrest]
    | crashed ms =>
      refine ⟨ms, ?_⟩
      simp [StreamAllFiles, streamLoop, hf, hrest]

/-- Witness for c2_amended at a concrete 403 response. -/
theorem c2_amended_witness :
    retryableGet ("https://example.com/a") (Except.ok ())
        (fun _ => Except.ok { statusCode := 403, body := [9] })
        (fun _ => Except.error ("unused")) =
      (GetResult.ok { statusCode := 403, body := [9] }, []) ∧
    ∃ ms, (StreamAllFiles ⟨[{ url := "https://example.com/a", zipPath := "a.txt" }], zipStore⟩
        (fun _ => GetResult.ok { statusCode := 403, body := [9] })).members =
      { name := "a.txt", method := zipStore, content := [9] } :: ms :=
  c2_amended ("https://example.com/a") (by decide)
    (fun _ => Except.ok { statusCode := 403, body := [9] })
    (fun _ => Except.error ("unused"))
    { statusCode := 403, body := [9] } rfl (by decide)
    zipStore { url := "https://example.com/a", zipPath := "a.txt" } []
    (fun _ => GetResult.ok { statusCode := 403, body := [9] }) rfl

/-- C3: for a non-empty entry list whose fetches all complete (none
crashes), StreamAllFiles writes exactly one member per entry, in input
order, named by the entry's archive path; the member content is the
fetched body when the fetch succeeded and empty when it failed
(contentOf), and the archive is finalized with a nil error - in
particular whenever at least one entry succeeded. -/
theorem c3_streamAllFiles_members (method : Nat) (entries : List FileEntry)
    (fetch : Nat → GetResult) (hne : entries ≠ [])
    (hc : ∀ i, i < entries.length → fetch i ≠ GetResult.nilDeref) :
    (StreamAllFiles ⟨entries, method⟩ fetch).members.length = entries.length ∧
    (StreamAllFiles ⟨entries, method⟩ fetch).finalized = true ∧
    (StreamAllFiles ⟨entries, method⟩ fetch).result = StreamResult.ok ∧
    ∀ (i : Nat) (entry : FileEntry), entries[i]? = some entry →
      (StreamAllFiles ⟨entries, method⟩ fetch).members[i]? =
        some { name := entry.zipPath, method := method, content := contentOf (fetch i) } := by
  obtain ⟨ms, hms, hlen, hget⟩ := streamLoop_done method fetch entries 0
    (by intro i hi; rw [Nat.zero_add]; exact hc i hi)
  have hnz : entries.length ≠ 0 := by
    intro h0
    exact hne (List.length_eq_zero.mp h0)
  have hout : StreamAllFiles ⟨entries, method⟩ fetch =
      { members := ms, finalized := true, result := StreamResult.ok,
        success := entries.length } := by
    simp only [StreamAllFiles, hms]
    rw [if_neg hnz]
  rw [hout]
  refine ⟨hlen, rfl, rfl, ?_⟩
  intro i entry h
  have hx := hget i entry h
  simpa using hx

/-- Witness for c3_streamAllFiles_members on a one-entry list with a
successful fetch. -/
theorem c3_witness :
    (StreamAllFiles ⟨[{ url := "u", zipPath := "a.txt" }], zipStore⟩
        (fun _ => GetResult.ok { statusCode := 200, body := [104, 105] })).finalized = true ∧
    (StreamAllFiles ⟨[{ url := "u", zipPath := "a.txt" }], zipStore⟩
        (fun _ => GetResult.ok { statusCode := 200, body := [104, 105] })).members[0]? =
      some { name := "a.txt", method := zipStore,
             content := contentOf (GetResult.ok { statusCode := 200, body := [104, 105] }) } := by
  have h := c3_streamAllFiles_members zipStore [{ url := "u", zipPath := "a.txt" }]
    (fun _ => GetResult.ok { statusCode := 200, body := [104, 105] })
    (by decide) (fun i _ => by simp)
  exact ⟨h.2.1, h.2.2.2 0 { url := "u", zipPath := "a.txt" } (by decide)⟩

/-- C4 counterexample: a generic-path input on which every attempt fails
with the retryable status 500.  The sleep list has one entry per attempt
- five sleeps for five attempts, the last one after the final attempt -
whereas the claim says no sleep occurs after the final attempt (which
would give four sleeps). -/
theorem c4_counterexample :
    retryableGet ("https://example.com/a") (Except.ok ())
        (fun _ => Except.ok { statusCode := 500, body := [] })
        (fun _ => Except.error ("unused")) =
      (GetResult.err ("max retries exceeded"), [1, 2, 4, 8, 16]) ∧
    (retryableGet ("https://example.com/a") (Except.ok ())
        (fun _ => Except.ok { statusCode := 500, body := [] })
        (fun _ => Except.error ("unused"))).2.length = NUM_RETRIES := by
  exact ⟨by decide, by decide⟩

/-- C4 amended: only the error branch guards the sleep with
i < NUM_RETRIES-1.  When every attempt fails with an error (the S3
path), no sleep follows the final attempt (four sleeps for five
attempts); when every attempt yields a retryable HTTP status on the
generic path, the backoff sleep also runs after the final attempt (five
sleeps for five attempts). -/
theorem c4_amended (url1 url2 : String) (h1 : isS3URL url1 = true)
    (h2 : isS3URL url2 = false) (newReq : Except String Unit)
    (doReq1 doReq2 : Nat → Except String Response)
    (s3a s3b : Nat → Except String (List Nat)) (e : Nat → String) (r : Nat → Response) :
    ((∀ i, i < NUM_RETRIES → s3a i = Except.error (e i)) →
      (retryableGet url1 newReq doReq1 s3a).2 = [1, 2, 4, 8]) ∧
    ((∀ i, i < NUM_RETRIES → doReq2 i = Except.ok (r i)) →
      (∀ i, i < NUM_RETRIES → (r i).statusCode ∈ retryableStatusCodes) →
      (retryableGet url2 (Except.ok ()) doReq2 s3b).2 = [1, 2, 4, 8, 16]) := by
  constructor
  · intro h
    rw [retryableGet_s3_all_fail url1 h1 newReq doReq1 s3a e h]
  · intro h hs
    rw [retryableGet_generic_all_retryable url2 h2 doReq2 s3b r h hs]

/-- Witness for c4_amended: concrete all-failing S3 run and concrete
all-retryable generic run. -/
theorem c4_amended_witness :
    (retryableGet ("https://b.isic-storage.example/k") (Except.ok ())
        (fun _ => Except.error ("unused")) (fun _ => Except.error ("boom"))).2 = [1, 2, 4, 8] ∧
    (retryableGet ("https://example.com/a") (Except.ok ())
        (fun _ => Except.ok { statusCode := 503, body := [] })
        (fun _ => Except.error ("unused"))).2 = [1, 2, 4, 8, 16] := by
  have h := c4_amended ("https://b.isic-storage.example/k") ("https://example.com/a")
    (by decide) (by decide) (Except.ok ())
    (fun _ => Except.error ("unused")) (fun _ => Except.ok { statusCode := 503, body := [] })
    (fun _ => Except.error ("boom")) (fun _ => Except.error ("unused"))
    (fun _ => "boom") (fun _ => { statusCode := 503, body := [] })
  exact ⟨h.1 (fun i _ => rfl), h.2 (fun i _ => rfl) (fun i _ => by decide)⟩

/-- C5: on the object-store path (isS3URL), any non-error result of
retryableGet carries status code exactly 200; retry classification is by
error presence only - when the first j attempts error and attempt j
succeeds, the synthetic 200 response with the object bytes is returned
after exactly j backoff sleeps of the shared schedule, and when every
attempt errors the attempts are exhausted like the generic path,
returning the captured error. -/
theorem c5_s3_path (url : String) (hurl : isS3URL url = true)
    (newReq : Except String Unit) (doReq : Nat → Except String Response)
    (s3 : Nat → Except String (List Nat)) (e : Nat → String) (j : Nat) (b : List Nat) :
    (∀ r : Response, (retryableGet url newReq doReq s3).1 = GetResult.ok r →
      r.statusCode = 200) ∧
    ((∀ i, i < NUM_RETRIES → s3 i = Except.error (e i)) →
      retryableGet url newReq doReq s3 = (GetResult.err (e 4), [1, 2, 4, 8])) ∧
    (j < NUM_RETRIES → s3 j = Except.ok b → (∀ i, i < j → s3 i = Except.error (e i)) →
      retryableGet url newReq doReq s3 =
        (GetResult.ok { statusCode := 200, body := b },
          (List.range j).map sleepDurationSec)) := by
  refine ⟨?_, ?_, ?_⟩
  · intro r h
    unfold retryableGet at h
    rw [hurl] at h
    exact retryableGetAux_s3_status newReq doReq s3 (List.range NUM_RETRIES) none r h
  · intro h
    exact retryableGet_s3_all_fail url hurl newReq doReq s3 e h
  · intro hj hok hbefore
    exact retryableGet_s3_first_ok url hurl newReq doReq s3 e j b hj hok hbefore

/-- Witness for c5_s3_path: the first attempt errors, the second
succeeds; the result is the synthetic 200 response after one sleep. -/
theorem c5_witness :
    1 < NUM_RETRIES ∧
    retryableGet ("https://b.isic-storage.example/k") (Except.ok ())
        (fun _ => Except.error ("unused"))
        (fun i => if i = 0 then Except.error ("boom") else Except.ok [7]) =
      (GetResult.ok { statusCode := 200, body := [7] },
        (List.range 1).map sleepDurationSec) := by
  have h := c5_s3_path ("https://b.isic-storage.example/k") (by decide) (Except.ok ())
    (fun _ => Except.error ("unused"))
    (fun i => if i = 0 then Except.error ("boom") else Except.ok [7])
    (fun _ => "boom") 1 [7]
  refine ⟨by decide, h.2.2 (by decide) rfl ?_⟩
  intro i hi
  interval_cases i
  rfl

/-- C6: on the generic path, an attempt that produced a response is
retried (with the attempt's backoff sleep) exactly when the status is in
retryableStatusCodes, which is exactly {408, 429, 500, 502, 503, 504};
any other status makes retryableGet return that response immediately. -/
theorem c6_generic_retry_classification (url : String) (hurl : isS3URL url = false)
    (doReq : Nat → Except String Response) (s3 : Nat → Except String (List Nat))
    (lastErr : Option String) (i : Nat) (rest : List Nat) (r : Response)
    (hd : doReq i = Except.ok r) :
    (∀ c : Nat, c ∈ retryableStatusCodes ↔
      (c = 408 ∨ c = 429 ∨ c = 500 ∨ c = 502 ∨ c = 503 ∨ c = 504)) ∧
    (r.statusCode ∉ retryableStatusCodes →
      retryableGetAux false (Except.ok ()) doReq s3 lastErr (i :: rest) =
        (GetResult.ok r, [])) ∧
    (r.statusCode ∈ retryableStatusCodes →
      retryableGetAux false (Except.ok ()) doReq s3 lastErr (i :: rest) =
        ((retryableGetAux false (Except.ok ()) doReq s3 lastErr rest).1,
          sleepDurationSec i :: (retryableGetAux false (Except.ok ()) doReq s3 lastErr rest).2)) ∧
    (doReq 0 = Except.ok r → r.statusCode ∉ retryableStatusCodes →
      retryableGet url (Except.ok ()) doReq s3 = (GetResult.ok r, [])) := by
  refine ⟨?_, ?_, ?_, ?_⟩
  · intro c
    simp [retryableStatusCodes]
  · intro hs
    simp [retryableGetAux, hd, hs]
  · intro hs
    simp [retryableGetAux, hd, hs]
  · intro h0 hs
    unfold retryableGet
    rw [hurl, show List.range NUM_RETRIES = [0, 1, 2, 3, 4] from by decide]
    simp [retryableGetAux, h0, hs]

/-- Witness for c6_generic_retry_classification: a 503 response on
attempt 0 is retried with a 1-second sleep; a 404 is not in the
retryable set and is returned immediately. -/
theorem c6_witness :
    (404 ∈ retryableStatusCodes ↔
      ((404 : Nat) = 408 ∨ (404 : Nat) = 429 ∨ (404 : Nat) = 500 ∨
        (404 : Nat) = 502 ∨ (404 : Nat) = 503 ∨ (404 : Nat) = 504)) ∧
    retryableGet ("https://example.com/a") (Except.ok ())
        (fun _ => Except.ok { statusCode := 404, body := [] })
        (fun _ => Except.error ("unused")) =
      (GetResult.ok { statusCode := 404, body := [] }, []) := by
  have h := c6_generic_retry_classification ("https://example.com/a") (by decide)
    (fun _ => Except.ok { statusCode := 404, body := [] })
    (fun _ => Except.error ("unused")) none 0 [] { statusCode := 404, body := [] } rfl
  exact ⟨h.1 404, h.2.2.2 rfl (by decide)⟩

/-- C7: the backoff duration for zero-based attempt i is exactly
min (2 ^ i) 30 seconds: 1, 2, 4, 8, 16 for attempts 0..4, and capped at
30 for every i >= 5. -/
theorem c7_backoff_schedule :
    (∀ i : Nat, sleepDurationSec i = min (2 ^ i) 30) ∧
    sleepDurationSec 0 = 1 ∧ sleepDurationSec 1 = 2 ∧ sleepDurationSec 2 = 4 ∧
    sleepDurationSec 3 = 8 ∧ sleepDurationSec 4 = 16 ∧
    ∀ i : Nat, 5 ≤ i → sleepDurationSec i = 30 := by
  refine ⟨fun i => rfl, rfl, rfl, rfl, rfl, rfl, ?_⟩
  intro i hi
  have h32 : 30 ≤ 2 ^ i := by
    calc (30 : Nat) ≤ 2 ^ 5 := by norm_num
    _ ≤ 2 ^ i := Nat.pow_le_pow_right (by norm_num) hi
  simpa [sleepDurationSec] using Nat.min_eq_right h32

/-- Witness for c7_backoff_schedule at attempt 9. -/
theorem c7_witness : 5 ≤ 9 ∧ sleepDurationSec 9 = 30 :=
  ⟨by decide, c7_backoff_schedule.2.2.2.2.2.2 9 (by decide)⟩

/-- C8: when retryableGet exhausts all NUM_RETRIES attempts it returns a
non-nil error.  On the S3 path the outer err variable captures each
attempt's specific error, so exhaustion returns the last specific error;
on the generic path no specific error is ever captured into the outer
err (exhaustion there happens only through retryable statuses), so the
generic "max retries exceeded" error is returned. -/
theorem c8_exhausted_retries (url1 url2 : String) (h1 : isS3URL url1 = true)
    (h2 : isS3URL url2 = false) (newReq : Except String Unit)
    (doReq1 doReq2 : Nat → Except String Response)
    (s3a s3b : Nat → Except String (List Nat)) (e : Nat → String) (r : Nat → Response) :
    ((∀ i, i < NUM_RETRIES → s3a i = Except.error (e i)) →
      (retryableGet url1 newReq doReq1 s3a).1 = GetResult.err (e 4)) ∧
    ((∀ i, i < NUM_RETRIES → doReq2 i = Except.ok (r i)) →
      (∀ i, i < NUM_RETRIES → (r i).statusCode ∈ retryableStatusCodes) →
      (retryableGet url2 (Except.ok ()) doReq2 s3b).1 =
        GetResult.err ("max retries exceeded")) := by
  constructor
  · intro h
    rw [retryableGet_s3_all_fail url1 h1 newReq doReq1 s3a e h]
  · intro h hs
    rw [retryableGet_generic_all_retryable url2 h2 doReq2 s3b r h hs]

/-- Witness for c8_exhausted_retries at concrete all-failing runs. -/
theorem c8_witness :
    (retryableGet ("https://b.isic-storage.example/k") (Except.ok ())
        (fun _ => Except.error ("unused")) (fun _ => Except.error ("boom"))).1 =
      GetResult.err ("boom") ∧
    (retryableGet ("https://example.com/a") (Except.ok ())
        (fun _ => Except.ok { statusCode := 429, body := [] })
        (fun _ => Except.error ("unused"))).1 =
      GetResult.err ("max retries exceeded") := by
  have h := c8_exhausted_retries ("https://b.isic-storage.example/k") ("https://example.com/a")
    (by decide) (by decide) (Except.ok ())
    (fun _ => Except.error ("unused")) (fun _ => Except.ok { statusCode := 429, body := [] })
    (fun _ => Except.error ("boom")) (fun _ => Except.error ("unused"))
    (fun _ => "boom") (fun _ => { statusCode := 429, body := [] })
  exact ⟨h.1 (fun i _ => rfl), h.2 (fun i _ => rfl) (fun i _ => by decide)⟩

/-- C9: NewZipStream rejects the empty entry list with the
"must have at least 1 entry" error, and for any non-empty list succeeds,
keeping the entries and defaulting the compression method to zip.Store.
The construction is a pure function of the entry list: no fetch or other
I/O occurs. -/
theorem c9_newZipStream :
    NewZipStream [] = Except.error ("must have at least 1 entry") ∧
    ∀ (entry : FileEntry) (rest : List FileEntry),
      NewZipStream (entry :: rest) =
        Except.ok { entries := entry :: rest, CompressionMethod := zipStore } := by
  refine ⟨rfl, ?_⟩
  intro entry rest
  simp [NewZipStream]

/-- C10 counterexample: a build info whose vcs.revision value is the
3-character string "abc".  getVcsRevision slices Value[:8] without a
length check, which panics (slice bounds out of range), modelled by
none: the function returns neither "dev" nor a prefix, refuting the
claim that it is total on every build info. -/
theorem c10_counterexample :
    getVcsRevision (some { settings := [{ key := "vcs.revision", value := "abc" }] }) =
      none := by decide

/-- C10 amended: getVcsRevision answers "dev" when build info is
unavailable; given build info it answers "dev" when no vcs.revision
setting is found, the first 8 characters of a vcs.revision value of
length at least 8, and crashes (slice bounds panic) on a vcs.revision
value shorter than 8 characters. -/
theorem c10_amended :
    getVcsRevision none = some ("dev") ∧
    ∀ bi : BuildInfo,
      getVcsRevision (some bi) = some ("dev") ∨
      (∃ s, s ∈ bi.settings ∧ s.key = "vcs.revision" ∧ 8 ≤ s.value.length ∧
        getVcsRevision (some bi) = some (s.value.take 8)) ∨
      (∃ s, s ∈ bi.settings ∧ s.key = "vcs.revision" ∧ s.value.length < 8 ∧
        getVcsRevision (some bi) = none) := by
  refine ⟨rfl, ?_⟩
  intro bi
  simpa [getVcsRevision] using findVcsRevision_spec bi.settings
